import Mathlib

/-!
Shallow embedding of the Obsidian_OpenAPI translation-and-audit subsystem.

The Python source files embedded here are:
 - `app/services/history.py` (the operation ledger, class HistoryManager);
 - `app/services/obsidian.py` (the remote vault gateway, class ObsidianClient);
 - `app/routers/vault.py`, `app/routers/directory.py`, `app/routers/search.py`
   (the thin routing layer where it matters for the claims).

Python values that flow through JSON are modelled by the `PyVal` type; the
remote content API is an input of each gateway function (connection error or
an HTTP response); exceptions are modelled with `Except`.
-/

set_option maxHeartbeats 1000000
set_option linter.unusedVariables false

namespace ObsidianOpenAPI

/-- A Python/JSON value, as produced by `json.load` and consumed by the
ledger and the gateway.  Floats do not occur in any value the embedded code
constructs or inspects, so they are not included. -/
inductive PyVal where
  | pNone : PyVal
  | pBool : Bool → PyVal
  | pInt : Int → PyVal
  | pStr : String → PyVal
  | pList : List PyVal → PyVal
  | pDict : List (String × PyVal) → PyVal
deriving Repr

/-- A Python exception that is not a fastapi HTTPException. -/
inductive PyErr where
  /-- `fastapi.HTTPException(status_code, detail)`. -/
  | http : Nat → String → PyErr
  /-- `httpx.HTTPStatusError` raised by `response.raise_for_status()`;
  carries the response status code. -/
  | statusError : Nat → PyErr
  /-- `TypeError` (e.g. subscripting a str with a str key, slicing an int). -/
  | typeError : PyErr
  /-- `AttributeError` (e.g. `.get` on a non-dict). -/
  | attributeError : PyErr
  /-- pydantic validation failure when building a response model. -/
  | validationError : PyErr
deriving Repr, DecidableEq

/-- Python's `s.lstrip("/")`: removes every leading '/' character. -/
def pyLstripSlash (s : String) : String :=
  String.mk (s.data.dropWhile (fun c => c == '/'))

/-- Python's `l[-n:]` for a non-negative `n`: the whole list when `n = 0`
(since `l[-0:] = l[0:]`), otherwise the last `n` elements. -/
def pyLastSlice (n : Nat) (l : List α) : List α :=
  if n = 0 then l else l.drop (l.length - n)

/-- The last `n` elements of a list (the contents of a `deque` with
`maxlen = n` after feeding it `l`). -/
def lastN (n : Nat) (l : List α) : List α :=
  l.drop (l.length - n)

/-- `dict.get(key, default)` on the association list of a Python dict. -/
def dictGetD (kvs : List (String × PyVal)) (k : String) (d : PyVal) : PyVal :=
  (List.lookup k kvs).getD d

/-- Python's `s.endswith(t)` (and Lean's `String.endsWith`), written on the
character list so that concrete instances evaluate by reduction. -/
def strEndsWith (s t : String) : Bool :=
  t.data.isSuffixOf s.data

/-- Python's `s.startswith(t)` (and Lean's `String.startsWith`), written on
the character list so that concrete instances evaluate by reduction. -/
def strStartsWith (s t : String) : Bool :=
  t.data.isPrefixOf s.data

/-! ## The operation ledger: `app/services/history.py`, class HistoryManager

The in-memory `deque` of record dicts is a `List PyVal` (oldest first); the
backing store file `.history/operations.json` is the `store` field of `Fs`
(`none` when the file does not exist, otherwise the parsed JSON document it
holds — `json.dump`/`json.load` round-trip on these documents is the
identity).  The uuid and the two `datetime.utcnow()` reads of a call are
inputs, as is whether the file write raises `IOError`. -/

/-- The filesystem as the ledger sees it: the backing store file. -/
structure Fs where
  store : Option PyVal
deriving Repr

/-- In-memory state of `HistoryManager`: `self.max_entries` and the deque
`self._operations`. -/
structure HistoryManager where
  max_entries : Nat
  operations : List PyVal
deriving Repr

/-- An `Optional[str]` rendered into a JSON value. -/
def optStr : Option String → PyVal
  | none => PyVal.pNone
  | some s => PyVal.pStr s

/-- The inputs of one `record_operation` call: the caller-supplied arguments
plus the generated uuid, the `utcnow()` timestamp and whether the store
write succeeds (the `except IOError` branch of `_save_history`). -/
structure RecordInput where
  op : String
  path : String
  prev : Option String
  new : Option String
  meta : Option (List (String × PyVal))
  uid : String
  ts : String
  ioOk : Bool
deriving Repr

/-- The record dict built by `record_operation` (history.py lines 76-84). -/
def mkRecord (i : RecordInput) : PyVal :=
  PyVal.pDict
    [ ("id", PyVal.pStr i.uid)
    , ("timestamp", PyVal.pStr i.ts)
    , ("operation", PyVal.pStr i.op)
    , ("path", PyVal.pStr i.path)
    , ("previous_content", optStr i.prev)
    , ("new_content", optStr i.new)
    , ("metadata", PyVal.pDict (i.meta.getD []))
    ]

/-- The document `_save_history` serializes (history.py lines 51-54). -/
def historyDoc (ops : List PyVal) (ts : String) : PyVal :=
  PyVal.pDict [("operations", PyVal.pList ops), ("last_updated", PyVal.pStr ts)]

/-- `HistoryManager._save_history` (history.py lines 43-56): no-op when
`max_entries == 0`; otherwise writes the full document, and an `IOError`
(`ioOk = false`) is swallowed leaving the file as it was. -/
def save_history (st : HistoryManager) (fs : Fs) (ts : String) (ioOk : Bool) : Fs :=
  if st.max_entries = 0 then fs
  else if ioOk then { store := some (historyDoc st.operations ts) }
  else fs

/-- Appending to a `deque` with `maxlen = m`: the oldest entry is evicted
once the deque is full. -/
def dequeAppend (m : Nat) (l : List PyVal) (r : PyVal) : List PyVal :=
  lastN m (l ++ [r])

/-- `HistoryManager.record_operation` (history.py lines 58-89).  Returns the
operation id together with the new manager and filesystem states. -/
def record_operation (st : HistoryManager) (fs : Fs) (i : RecordInput) :
    String × HistoryManager × Fs :=
  if st.max_entries = 0 then ("", st, fs)
  else
    let record := mkRecord i
    let st' : HistoryManager :=
      { st with operations := dequeAppend st.max_entries st.operations record }
    (i.uid, st', save_history st' fs i.ts i.ioOk)

/-- `HistoryManager.get_history` (history.py lines 91-100): most-recent
first; `operations[-limit:]` is applied only when `limit` is truthy, so a
`limit` of `None` or `0` returns everything.  (The final
`OperationRecord(**op)` pydantic step is an order-preserving reparse of each
dict; the dicts themselves are returned here.) -/
def get_history (st : HistoryManager) (limit : Option Nat) : List PyVal :=
  if st.max_entries = 0 then []
  else
    let ops := st.operations
    let ops :=
      match limit with
      | none => ops
      | some l => if l = 0 then ops else pyLastSlice l ops
    ops.reverse

/-- What `_load_history` finds when it runs: the file is absent, opening or
reading it raises `IOError`, `json.load` raises `JSONDecodeError`, or a
JSON value is parsed. -/
inductive LoadInput where
  | missing : LoadInput
  | ioError : LoadInput
  | malformed : LoadInput
  | parsed : PyVal → LoadInput
deriving Repr

/-- `HistoryManager._load_history` (history.py lines 26-41), returning the
contents of `self._operations` afterwards, or the exception that escapes.
`IOError` and `JSONDecodeError` are caught and leave the deque empty; but
`data.get` on a non-dict raises `AttributeError`, and slicing a
non-sliceable `operations` value raises `TypeError` — neither is caught.
A str `operations` value is sliceable and iterable; its characters (Python
length-1 strings) end up in the deque. -/
def load_history (maxEntries : Nat) (inp : LoadInput) : Except PyErr (List PyVal) :=
  if maxEntries = 0 then .ok []
  else
    match inp with
    | .missing => .ok []
    | .ioError => .ok []
    | .malformed => .ok []
    | .parsed data =>
      match data with
      | .pDict kvs =>
        match dictGetD kvs "operations" (PyVal.pList []) with
        | .pList l =>
          -- operations = operations[-self.max_entries:] (guarded by > 0)
          let l := if maxEntries > 0 then pyLastSlice maxEntries l else l
          .ok (lastN maxEntries l)
        | .pStr s =>
          let chars := (pyLastSlice maxEntries s.data).map
            (fun c => PyVal.pStr (String.mk [c]))
          .ok (lastN maxEntries chars)
        | _ => .error .typeError
      | _ => .error .attributeError

/-- `HistoryManager.__init__` (history.py lines 17-24): reads
`max_history_entries` from settings and loads the prior state; an exception
escaping `_load_history` makes construction fail. -/
def initManager (maxEntries : Nat) (inp : LoadInput) : Except PyErr HistoryManager :=
  (load_history maxEntries inp).map (fun ops => ⟨maxEntries, ops⟩)

/-- The load input a filesystem state presents to a restarting process. -/
def loadInputOfFs (fs : Fs) : LoadInput :=
  match fs.store with
  | none => .missing
  | some v => .parsed v

/-- `HistoryManager.clear_history` (history.py lines 112-119): empty the
deque, save (a no-op when disabled), then unlink the store file. -/
def clear_history (st : HistoryManager) (fs : Fs) (ts : String) (ioOk : Bool) :
    HistoryManager × Fs :=
  let st' : HistoryManager := { st with operations := [] }
  let fs' := save_history st' fs ts ioOk
  (st', { fs' with store := none })

/-- Record a whole sequence of operations, threading manager and filesystem. -/
def runRecords (st : HistoryManager) (fs : Fs) (inputs : List RecordInput) :
    HistoryManager × Fs :=
  inputs.foldl (fun s i => (record_operation s.1 s.2 i).2) (st, fs)

/-- One external call into the ledger, for whole-lifetime statements. -/
inductive LedgerAction where
  | rcd : RecordInput → LedgerAction
  | clr : String → Bool → LedgerAction
deriving Repr

/-- Interpret one ledger call. -/
def ledgerStep (s : HistoryManager × Fs) : LedgerAction → HistoryManager × Fs
  | .rcd i => (record_operation s.1 s.2 i).2
  | .clr ts ioOk => clear_history s.1 s.2 ts ioOk

/-- Interpret a sequence of ledger calls. -/
def ledgerRun (s : HistoryManager × Fs) (acts : List LedgerAction) :
    HistoryManager × Fs :=
  acts.foldl ledgerStep s

/-! ## The path codec and the remote vault gateway: `app/services/obsidian.py`

Each gateway method is a pure function of its arguments and the remote's
behaviour on the single request the method issues.  The remote behaviour is
either a transport failure (the `except Exception` around the `httpx` call)
or a response with a status code, a text body, and the result of `.json()`
on it (`none` when the body is not valid JSON). -/

/-- Python's `urllib.parse` set of always-safe characters:
ASCII letters, digits, and '_', '.', '-', '~'. -/
def isAlwaysSafe (c : Char) : Bool :=
  c.isAlpha || c.isDigit || c == '_' || c == '.' || c == '-' || c == '~'

/-- The UTF-8 encoding of a character, as a list of byte values. -/
def utf8Bytes (c : Char) : List Nat :=
  let n := c.toNat
  if n < 0x80 then [n]
  else if n < 0x800 then [0xC0 + n / 0x40, 0x80 + n % 0x40]
  else if n < 0x10000 then
    [0xE0 + n / 0x1000, 0x80 + n / 0x40 % 0x40, 0x80 + n % 0x40]
  else
    [0xF0 + n / 0x40000, 0x80 + n / 0x1000 % 0x40, 0x80 + n / 0x40 % 0x40,
     0x80 + n % 0x40]

/-- An uppercase hexadecimal digit. -/
def hexDigitUpper (n : Nat) : Char :=
  if n < 10 then Char.ofNat (48 + n) else Char.ofNat (55 + n)

/-- A percent-escape "%XX" for one byte value. -/
def percentByte (b : Nat) : String :=
  String.mk ['%', hexDigitUpper (b / 16), hexDigitUpper (b % 16)]

/-- How `urllib.parse.quote(s, safe="/")` renders one character: safe
characters (and '/') pass through, everything else becomes the percent
escapes of its UTF-8 bytes. -/
def quoteSafeSlash (c : Char) : String :=
  if isAlwaysSafe c || c == '/' then String.mk [c]
  else String.join ((utf8Bytes c).map percentByte)

/-- `urllib.parse.quote(s, safe="/")`. -/
def pyQuote (s : String) : String :=
  String.join (s.data.map quoteSafeSlash)

/-- `ObsidianClient._encode_path` (obsidian.py lines 49-53):
`path.lstrip("/")` then `quote(path, safe="/")`. -/
def encode_path (path : String) : String :=
  pyQuote (pyLstripSlash path)

/-- `ObsidianClient._normalize_directory_path` (obsidian.py lines 55-72). -/
def normalize_directory_path (path : String) : String :=
  if path = "" || path = "/" then "/vault/"
  else
    let p := pyLstripSlash path
    let p := if strEndsWith p "/" then p else p ++ "/"
    "/vault/" ++ p

/-- An HTTP response from the remote Obsidian API: status code, text body,
and the result of `response.json()` (`none` when the body does not parse). -/
structure HttpResponse where
  status : Nat
  text : String
  jsonBody : Option PyVal
deriving Repr

/-- The remote's behaviour on one request: the `httpx` call raises (caught
by the `except Exception` wrapper), or a response arrives. -/
inductive RemoteOutcome where
  | connError : String → RemoteOutcome
  | response : HttpResponse → RemoteOutcome
deriving Repr

/-- The HTTPException every gateway method raises when the transport fails. -/
def badGateway (msg : String) : PyErr :=
  .http 502 ("Failed to connect to Obsidian API: " ++ msg)

/-- `response.raise_for_status()`: raises `httpx.HTTPStatusError` for any
status of 400 or above. -/
def raiseForStatus (r : HttpResponse) : Except PyErr Unit :=
  if 400 ≤ r.status then .error (.statusError r.status) else .ok ()

/-- The request a gateway method sends. -/
structure HttpRequest where
  method : String
  url : String
  body : String
  headers : List (String × String)
deriving Repr

/-- `ObsidianClient.get_file` (obsidian.py lines 119-170): strips the
leading slashes, selects an Accept header from the format, maps transport
failure to 502 and status 404 to a 404 HTTPException, lets
`raise_for_status` throw on any other error status, and returns the
path/format/content dict. -/
def get_file (path : String) (format_type : String) (outcome : RemoteOutcome) :
    Except PyErr PyVal :=
  let p := pyLstripSlash path
  match outcome with
  | .connError msg => .error (badGateway msg)
  | .response r =>
    if r.status = 404 then .error (.http 404 ("File not found: " ++ p))
    else do
      raiseForStatus r
      let content :=
        if format_type = "json" || format_type = "document-map" then
          match r.jsonBody with
          | some v => v
          | none => PyVal.pStr r.text
        else PyVal.pStr r.text
      pure (PyVal.pDict
        [ ("path", PyVal.pStr p)
        , ("format", PyVal.pStr format_type)
        , ("content", content) ])

/-- `ObsidianClient.create_file` (obsidian.py lines 172-214): PUT when
`overwrite`, POST otherwise; transport failure maps to 502, status 400 to a
400 HTTPException, and every other error status escapes as the raw
`HTTPStatusError` of `raise_for_status` — in particular no status is ever
mapped to 409 Conflict. -/
def create_file (path content : String) (overwrite : Bool)
    (outcome : RemoteOutcome) : HttpRequest × Except PyErr PyVal :=
  let p := pyLstripSlash path
  let req : HttpRequest :=
    { method := if overwrite then "PUT" else "POST"
    , url := "/vault/" ++ encode_path p
    , body := content
    , headers := [("Content-Type", "text/markdown")] }
  let res : Except PyErr PyVal :=
    match outcome with
    | .connError msg => .error (badGateway msg)
    | .response r =>
      if r.status = 400 then .error (.http 400 ("Bad request: " ++ r.text))
      else do
        raiseForStatus r
        pure (PyVal.pDict
          [ ("path", PyVal.pStr p)
          , ("created", PyVal.pBool true)
          , ("message", PyVal.pStr ("File created successfully: " ++ p)) ])
  (req, res)

/-- `ObsidianClient.append_to_file` (obsidian.py lines 216-241): issues one
POST whose body is exactly the given content — the method never reads the
file and never inserts a separating newline.  Transport failure maps to
502; any error status escapes via `raise_for_status`. -/
def append_to_file (path content : String) (outcome : RemoteOutcome) :
    HttpRequest × Except PyErr PyVal :=
  let p := pyLstripSlash path
  let req : HttpRequest :=
    { method := "POST"
    , url := "/vault/" ++ encode_path p
    , body := content
    , headers := [("Content-Type", "text/markdown")] }
  let res : Except PyErr PyVal :=
    match outcome with
    | .connError msg => .error (badGateway msg)
    | .response r => do
      raiseForStatus r
      pure (PyVal.pDict
        [ ("path", PyVal.pStr p)
        , ("appended", PyVal.pBool true)
        , ("message", PyVal.pStr ("Content appended to: " ++ p)) ])
  (req, res)

/-- `ObsidianClient.delete_file` (obsidian.py lines 296-329): transport
failure maps to 502, status 404 to a 404 "File not found" HTTPException,
status 405 to a 405 "Cannot delete: path is a directory" HTTPException, and
any other error status escapes via `raise_for_status`. -/
def delete_file (path : String) (outcome : RemoteOutcome) : Except PyErr PyVal :=
  let p := pyLstripSlash path
  match outcome with
  | .connError msg => .error (badGateway msg)
  | .response r =>
    if r.status = 404 then .error (.http 404 ("File not found: " ++ p))
    else if r.status = 405 then
      .error (.http 405 "Cannot delete: path is a directory, not a file")
    else do
      raiseForStatus r
      pure (PyVal.pDict
        [ ("path", PyVal.pStr p)
        , ("deleted", PyVal.pBool true)
        , ("message", PyVal.pStr ("File deleted successfully: " ++ p)) ])

/-- `ObsidianClient.list_directory` (obsidian.py lines 333-381): 404 maps
to a 404 "Directory not found" HTTPException; an unparseable body to a 500;
`data.get("files", [])` raises `AttributeError` on a non-dict; a non-list
`files` value maps to a 500; otherwise the raw `files` list — whose items
are whatever the remote sent, and for the Obsidian API are plain string
paths with directories marked by a trailing slash — is passed through
unchanged: no per-entry structure is built here. -/
def list_directory (path : String) (outcome : RemoteOutcome) :
    Except PyErr PyVal :=
  match outcome with
  | .connError msg => .error (badGateway msg)
  | .response r =>
    if r.status = 404 then
      .error (.http 404 ("Directory not found: " ++ path))
    else do
      raiseForStatus r
      match r.jsonBody with
      | none => .error (.http 500 "Invalid JSON response from Obsidian API: ")
      | some data =>
        match data with
        | .pDict kvs =>
          match dictGetD kvs "files" (PyVal.pList []) with
          | .pList files =>
            pure (PyVal.pDict
              [ ("path", PyVal.pStr path)
              , ("files", PyVal.pList files)
              , ("total", PyVal.pInt files.length) ])
          | _ => .error (.http 500
              "Invalid response format from Obsidian API: expected 'files' to be a list")
        | _ => .error .attributeError

/-- `ObsidianClient.simple_search` (obsidian.py lines 385-447): transport
failure maps to 502; a 404 from the remote — the capability-absent signal —
raises a 501 HTTPException (despite the "try manual search as fallback"
comment, no fallback search exists or is invoked); other error statuses
escape via `raise_for_status`; an unparseable body maps to 500; a parsed
body is transformed item by item (non-dict items raise `AttributeError`,
a non-iterable matches value raises `TypeError`). -/
def searchMatchTransform (m : PyVal) : Except PyErr PyVal :=
  match m with
  | .pDict kvs =>
    let mm := dictGetD kvs "match" (PyVal.pDict [])
    let start :=
      match mm with
      | .pDict mkvs => Except.ok (dictGetD mkvs "start" (PyVal.pInt 0))
      | _ => Except.error PyErr.attributeError
    let stop :=
      match mm with
      | .pDict mkvs => Except.ok (dictGetD mkvs "end" (PyVal.pInt 0))
      | _ => Except.error PyErr.attributeError
    do
      let s ← start
      let e ← stop
      pure (PyVal.pDict
        [ ("match", PyVal.pDict [("start", s), ("end", e)])
        , ("context", dictGetD kvs "context" (PyVal.pStr "")) ])
  | _ => .error .attributeError

/-- Python iteration over a JSON value: lists yield elements, strings yield
their characters, dicts yield their keys; other values raise `TypeError`. -/
def pyIterate (v : PyVal) : Except PyErr (List PyVal) :=
  match v with
  | .pList l => .ok l
  | .pStr s => .ok (s.data.map (fun c => PyVal.pStr (String.mk [c])))
  | .pDict kvs => .ok (kvs.map (fun kv => PyVal.pStr kv.1))
  | _ => .error .typeError

/-- One result item of `simple_search`'s transform loop (obsidian.py lines
426-441); the float default 0.0 of `score` is written as the integer 0, no
arithmetic touches it. -/
def searchItemTransform (item : PyVal) : Except PyErr PyVal :=
  match item with
  | .pDict kvs => do
    let ms ← pyIterate (dictGetD kvs "matches" (PyVal.pList []))
    let ms' ← ms.mapM searchMatchTransform
    pure (PyVal.pDict
      [ ("filename", dictGetD kvs "filename" (PyVal.pStr ""))
      , ("score", dictGetD kvs "score" (PyVal.pInt 0))
      , ("matches", PyVal.pList ms') ])
  | _ => .error .attributeError

/-- `ObsidianClient.simple_search` itself. -/
def simple_search (query : String) (context_length : Nat)
    (outcome : RemoteOutcome) : Except PyErr PyVal :=
  match outcome with
  | .connError msg => .error (badGateway msg)
  | .response r =>
    if r.status = 404 then
      -- Endpoint not available - the comment says "try manual search as
      -- fallback", but the code raises instead:
      .error (.http 501
        "Simple search endpoint not available in your Obsidian Local REST API version")
    else do
      raiseForStatus r
      match r.jsonBody with
      | none => .error (.http 500 "Invalid JSON response from Obsidian API: ")
      | some data => do
        let items ← pyIterate data
        let results ← items.mapM searchItemTransform
        pure (PyVal.pDict
          [ ("query", PyVal.pStr query)
          , ("results", PyVal.pList results)
          , ("total", PyVal.pInt results.length) ])

/-! ## The routing layer where the claims reach it:
`app/routers/vault.py` and `app/routers/directory.py` -/

/-- A fastapi HTTPException as the HTTP boundary sees it. -/
structure HTTPError where
  status_code : Nat
  detail : String
deriving Repr, DecidableEq

/-- The catch-all of the vault routes: an `HTTPException` is re-raised, any
other exception becomes a 500 with the route's label. -/
def wrap500 (label : String) (r : Except PyErr PyVal) : Except HTTPError PyVal :=
  match r with
  | .ok v => .ok v
  | .error (.http code detail) => .error ⟨code, detail⟩
  | .error _ => .error ⟨500, label⟩

/-- The `create_file` route (vault.py lines 69-122): rejects empty or
slash-terminated paths with 400; when overwriting, first reads the current
content for the history snapshot, swallowing `HTTPException` there but
letting any other exception reach the catch-all; then calls the client and
wraps its outcome.  (Recording into the history manager happens after a
successful create and does not alter the HTTP result; it is settled by the
ledger theorems and omitted here.) -/
def router_create_file (path content : String) (overwrite : Bool)
    (getOutcome createOutcome : RemoteOutcome) : Except HTTPError PyVal :=
  if path = "" || strEndsWith path "/" then
    .error ⟨400, "Invalid file path. Cannot create a directory."⟩
  else
    if overwrite then
      match get_file path "markdown" getOutcome with
      | .error (.http _ _) =>
        wrap500 "Failed to create file: "
          (create_file path content overwrite createOutcome).2
      | .error _ => .error ⟨500, "Failed to create file: "⟩
      | .ok _ =>
        wrap500 "Failed to create file: "
          (create_file path content overwrite createOutcome).2
    else
      wrap500 "Failed to create file: "
        (create_file path content overwrite createOutcome).2

/-- The `VaultFile` pydantic model (models.py lines 60-67); the three
optional fields are kept as raw values. -/
structure VaultFile where
  path : String
  name : String
  is_directory : Bool
  extension : Option PyVal
  size : Option PyVal
  modified : Option PyVal
deriving Repr

/-- Python subscripting `v[key]` with a string key: only a dict supports
it (`KeyError` is collapsed into `typeError`-free modelling: a missing key
on a dict is a distinct error, and a non-dict raises `TypeError` — for a
str value, "string indices must be integers"). -/
def pySubscript (v : PyVal) (key : String) : Except PyErr PyVal :=
  match v with
  | .pDict kvs =>
    match List.lookup key kvs with
    | some x => .ok x
    | none => .error .validationError
  | _ => .error .typeError

/-- `f.get(key)` for the optional fields of an entry. -/
def pyGetOpt (v : PyVal) (key : String) : Except PyErr (Option PyVal) :=
  match v with
  | .pDict kvs => .ok (List.lookup key kvs)
  | _ => .error .attributeError

/-- The per-entry conversion of the `list_directory` route (directory.py
lines 41-51): `VaultFile(path=f["path"], name=f["name"],
is_directory=f["is_directory"], extension=f.get("extension"), ...)`.
A string entry raises `TypeError` at the first subscript; a dict entry
must carry the three required keys with the right types. -/
def vault_file_of_py (f : PyVal) : Except PyErr VaultFile := do
  let p ← pySubscript f "path"
  let n ← pySubscript f "name"
  let d ← pySubscript f "is_directory"
  let ext ← pyGetOpt f "extension"
  let sz ← pyGetOpt f "size"
  let md ← pyGetOpt f "modified"
  match p, n, d with
  | .pStr ps, .pStr ns, .pBool db => .ok ⟨ps, ns, db, ext, sz, md⟩
  | _, _, _ => .error .validationError

/-- The directory listing response (models.py lines 70-74). -/
structure VaultDirectoryListing where
  path : String
  files : List VaultFile
  total : Int
deriving Repr

/-- The `list_directory` route (directory.py lines 18-57): calls the
client, then builds a `VaultFile` from every entry of the raw `files` list.
There is no try/except in this route, so any exception propagates. -/
def router_list_directory (path : String) (outcome : RemoteOutcome) :
    Except PyErr VaultDirectoryListing := do
  let result ← list_directory path outcome
  let files ← pySubscript result "files"
  match files with
  | .pList l => do
    let vs ← l.mapM vault_file_of_py
    let p ← pySubscript result "path"
    let t ← pySubscript result "total"
    match p, t with
    | .pStr ps, .pInt ti => .ok ⟨ps, vs, ti⟩
    | _, _ => .error .validationError
  | _ => .error .typeError

/-- A record input carrying only the fields the FIFO claims look at. -/
def smallInput (op path uid ts : String) : RecordInput :=
  ⟨op, path, none, none, none, uid, ts, true⟩

/-- Four concrete record calls A, B, C, D against a capacity-3 ledger. -/
def c1Inputs : List RecordInput :=
  [ smallInput "create" "A" "id1" "t1"
  , smallInput "create" "B" "id2" "t2"
  , smallInput "create" "C" "id3" "t3"
  , smallInput "create" "D" "id4" "t4" ]

/-- One concrete record call for the round-trip witness. -/
def c3Inputs : List RecordInput :=
  [ smallInput "append" "note.md" "id9" "t9" ]

/-- Modelled from the spec (section 4.2, append): the body the gateway
would send if it inspected the existing trailing content and inserted a
separating newline exactly when the existing content does not already end
in one.  Used only for comparison against `append_to_file`. -/
def spec_append_body (existing : Option String) (content : String) : String :=
  match existing with
  | none => content
  | some e => if strEndsWith e "\n" then content else "\n" ++ content

/-- Modelled from the spec (section 4.1, PathCodec): the encoder the claim
describes, stripping exactly one leading separator before quoting.  Used
only for comparison against `encode_path`. -/
def spec_encode_one (p : String) : String :=
  pyQuote (if strStartsWith p "/" then p.drop 1 else p)

/-- A successful directory listing response from the remote: the Obsidian
API shape, where entries are plain strings and directories carry a trailing
slash. -/
def c7Response : HttpResponse :=
  ⟨200, "", some (PyVal.pDict
    [("files", PyVal.pList [PyVal.pStr "note.md", PyVal.pStr "folder/"])])⟩

/-! ## Helper lemmas about `lastN` -/

theorem lastN_eq_reverse_take (n : Nat) (l : List α) :
    lastN n l = (l.reverse.take n).reverse := by
  have h : lastN n l = l.rtake n := rfl
  rw [h, List.rtake_eq_reverse_take_reverse]

theorem take_append_take (n : Nat) (a b : List α) :
    (a ++ b.take n).take n = (a ++ b).take n := by
  rw [List.take_append_eq_append_take, List.take_append_eq_append_take,
    List.take_take]
  congr 1
  rw [Nat.min_eq_left (Nat.sub_le n a.length)]

theorem lastN_append_absorb (n : Nat) (xs ys : List α) :
    lastN n (lastN n xs ++ ys) = lastN n (xs ++ ys) := by
  rw [lastN_eq_reverse_take n xs, lastN_eq_reverse_take n (xs ++ ys),
    lastN_eq_reverse_take n ((xs.reverse.take n).reverse ++ ys)]
  congr 1
  rw [List.reverse_append, List.reverse_append, List.reverse_reverse]
  exact take_append_take n _ _

theorem lastN_of_le (n : Nat) (l : List α) (h : l.length ≤ n) : lastN n l = l := by
  simp [lastN, Nat.sub_eq_zero_of_le h]

theorem length_lastN_le (n : Nat) (l : List α) : (lastN n l).length ≤ n := by
  simp only [lastN, List.length_drop]
  omega

theorem lastN_reverse_eq_take (n : Nat) (l : List α) :
    (lastN n l).reverse = l.reverse.take n := by
  rw [lastN_eq_reverse_take, List.reverse_reverse]

/-! ## Behaviour of sequences of `record_operation` calls -/

theorem runRecords_concat (st : HistoryManager) (fs : Fs)
    (xs : List RecordInput) (x : RecordInput) :
    runRecords st fs (xs ++ [x]) =
      (record_operation (runRecords st fs xs).1 (runRecords st fs xs).2 x).2 := by
  simp [runRecords, List.foldl_append]

/-- After any sequence of records on an enabled ledger whose deque respects
its bound, the deque holds the last `max_entries` of (previous contents
followed by all newly built record dicts), and the bound is unchanged. -/
theorem runRecords_spec (inputs : List RecordInput) :
    ∀ (st : HistoryManager) (fs : Fs), st.max_entries ≠ 0 →
      st.operations.length ≤ st.max_entries →
      (runRecords st fs inputs).1.max_entries = st.max_entries ∧
      (runRecords st fs inputs).1.operations =
        lastN st.max_entries (st.operations ++ inputs.map mkRecord) := by
  induction inputs with
  | nil =>
    intro st fs h hlen
    refine ⟨rfl, ?_⟩
    simp only [runRecords, List.foldl_nil, List.map_nil, List.append_nil]
    exact (lastN_of_le _ _ hlen).symm
  | cons i rest ih =>
    intro st fs h hlen
    have hrun : runRecords st fs (i :: rest) =
        runRecords (record_operation st fs i).2.1 (record_operation st fs i).2.2 rest := by
      simp [runRecords]
    have hst : (record_operation st fs i).2.1 =
        ⟨st.max_entries, dequeAppend st.max_entries st.operations (mkRecord i)⟩ := by
      simp [record_operation, h]
    have hlen' : (record_operation st fs i).2.1.operations.length ≤
        (record_operation st fs i).2.1.max_entries := by
      rw [hst]
      exact length_lastN_le _ _
    have hmax : (record_operation st fs i).2.1.max_entries = st.max_entries := by
      rw [hst]
    obtain ⟨h1, h2⟩ := ih (record_operation st fs i).2.1 (record_operation st fs i).2.2
      (by rw [hmax]; exact h) hlen'
    refine ⟨by rw [hrun, h1, hmax], ?_⟩
    rw [hrun, h2, hmax, hst]
    show lastN st.max_entries
        (dequeAppend st.max_entries st.operations (mkRecord i) ++ rest.map mkRecord) = _
    rw [dequeAppend, lastN_append_absorb, List.append_assoc]
    rfl

/-! ## Claim C1: bounded FIFO ledger and most-recent-first retrieval -/

/-- C1 (amended): for capacity N > 0, after recording N + k operations the
ledger holds exactly the N most recently recorded record dicts with the
oldest k evicted; `get_history none` (Python `get()`) returns them
most-recent-first, and `get_history (some limit)` returns the `limit` most
recent of them in that order for every limit ≥ 1.  (For limit = 0 the code
treats the falsy limit as "no limit" and returns all held records, which is
the one amendment to the claim.) -/
theorem ledger_bounded_fifo (N k limit : Nat) (hN : 0 < N) (hlim : 0 < limit)
    (inputs : List RecordInput) (fs : Fs) (hlen : inputs.length = N + k) :
    (runRecords ⟨N, []⟩ fs inputs).1.operations = (inputs.map mkRecord).drop k ∧
    get_history (runRecords ⟨N, []⟩ fs inputs).1 none =
      ((inputs.map mkRecord).drop k).reverse ∧
    get_history (runRecords ⟨N, []⟩ fs inputs).1 (some limit) =
      (((inputs.map mkRecord).drop k).reverse).take limit := by
  obtain ⟨hmax, hops⟩ := runRecords_spec inputs ⟨N, []⟩ fs
    (Nat.pos_iff_ne_zero.mp hN) (by simp)
  have hlenmap : (inputs.map mkRecord).length = N + k := by
    simpa using hlen
  have hdrop : lastN N (inputs.map mkRecord) = (inputs.map mkRecord).drop k := by
    simp only [lastN, hlenmap]
    congr 1
    omega
  have hops' : (runRecords ⟨N, []⟩ fs inputs).1.operations =
      (inputs.map mkRecord).drop k := by
    rw [hops]; simpa using hdrop
  have hlendrop : ((inputs.map mkRecord).drop k).length = N := by
    simp [hlenmap]
  refine ⟨hops', ?_, ?_⟩
  · unfold get_history
    rw [hmax]
    simp only [Nat.pos_iff_ne_zero.mp hN, if_false, hops']
  · unfold get_history
    rw [hmax]
    simp only [Nat.pos_iff_ne_zero.mp hN, if_false, hops',
      Nat.pos_iff_ne_zero.mp hlim, pyLastSlice]
    have : ((inputs.map mkRecord).drop k).drop
        (((inputs.map mkRecord).drop k).length - limit) =
        lastN limit ((inputs.map mkRecord).drop k) := rfl
    rw [this, lastN_reverse_eq_take]

/-- C1 witness: capacity 3, records A, B, C, D; the ledger holds the dicts
of B, C, D, `get()` returns D, C, B and `get(2)` returns D, C. -/
theorem ledger_bounded_fifo_witness :
    (0 < 3 ∧ 0 < 2 ∧ c1Inputs.length = 3 + 1) ∧
    ((runRecords ⟨3, []⟩ ⟨none⟩ c1Inputs).1.operations =
        (c1Inputs.map mkRecord).drop 1 ∧
      get_history (runRecords ⟨3, []⟩ ⟨none⟩ c1Inputs).1 none =
        ((c1Inputs.map mkRecord).drop 1).reverse ∧
      get_history (runRecords ⟨3, []⟩ ⟨none⟩ c1Inputs).1 (some 2) =
        (((c1Inputs.map mkRecord).drop 1).reverse).take 2) :=
  ⟨⟨by norm_num, by norm_num, by rfl⟩,
    ledger_bounded_fifo 3 1 2 (by norm_num) (by norm_num) c1Inputs ⟨none⟩ rfl⟩

/-- C1 counterexample: the claim as stated says `get(limit)` returns the
`limit` most recent records for every limit, so `get(0)` would return no
records; on the capacity-3 ledger holding B, C, D the code's `get(0)` takes
the falsy branch of `if limit:` and returns all 3 held records. -/
theorem ledger_get_zero_limit_cex :
    (get_history (runRecords ⟨3, []⟩ ⟨none⟩ c1Inputs).1 (some 0)).length = 3 ∧
    (3 : Nat) ≠ 0 := by
  constructor
  · rfl
  · norm_num

/-! ## Claim C2: a capacity-0 ledger is fully inert -/

theorem ledgerRun_zero_fixed (acts : List LedgerAction) :
    ledgerRun (⟨0, []⟩, ⟨none⟩) acts = (⟨0, []⟩, ⟨none⟩) := by
  induction acts with
  | nil => rfl
  | cons a rest ih =>
    have hstep : ledgerStep (⟨0, []⟩, ⟨none⟩) a = (⟨0, []⟩, ⟨none⟩) := by
      cases a with
      | rcd i => rfl
      | clr ts ioOk => rfl
    show ledgerRun (ledgerStep (⟨0, []⟩, ⟨none⟩) a) rest = _
    rw [hstep]
    exact ih

/-- C2 (confirmed): a ledger constructed with capacity 0 over an absent
store succeeds with an empty sequence; after any sequence of record/clear
calls the store file still does not exist and the deque is still empty;
a further `record_operation` returns the empty-id sentinel "" and creates
no store; `get_history` returns the empty sequence for every limit. -/
theorem ledger_capacity_zero (acts : List LedgerAction) (i : RecordInput)
    (limit : Option Nat) :
    initManager 0 .missing = .ok ⟨0, []⟩ ∧
    (ledgerRun (⟨0, []⟩, ⟨none⟩) acts).1 = ⟨0, []⟩ ∧
    (ledgerRun (⟨0, []⟩, ⟨none⟩) acts).2.store = none ∧
    (record_operation (ledgerRun (⟨0, []⟩, ⟨none⟩) acts).1
      (ledgerRun (⟨0, []⟩, ⟨none⟩) acts).2 i).1 = "" ∧
    (record_operation (ledgerRun (⟨0, []⟩, ⟨none⟩) acts).1
      (ledgerRun (⟨0, []⟩, ⟨none⟩) acts).2 i).2.2.store = none ∧
    get_history (ledgerRun (⟨0, []⟩, ⟨none⟩) acts).1 limit = [] := by
  rw [ledgerRun_zero_fixed]
  exact ⟨rfl, rfl, rfl, rfl, rfl, rfl⟩

/-! ## Claim C3: persistence round-trip at or below capacity -/

/-- C3 (confirmed): starting from a fresh ledger of capacity C with no
backing store, recording M ≤ C operations whose persistence succeeds and
then constructing a new ledger with the same capacity over the resulting
store restores exactly those M record dicts in the same relative order. -/
theorem load_history_parsed_doc (C : Nat) (hC : C ≠ 0) (ops : List PyVal)
    (hlen : ops.length ≤ C) (ts : String) :
    load_history C (.parsed (historyDoc ops ts)) = .ok ops := by
  unfold load_history historyDoc dictGetD
  rw [if_neg hC]
  have hlookup : List.lookup "operations"
      [("operations", PyVal.pList ops), ("last_updated", PyVal.pStr ts)] =
      some (PyVal.pList ops) := by
    simp [List.lookup]
  simp only [hlookup, Option.getD_some]
  have hpos : C > 0 := Nat.pos_of_ne_zero hC
  rw [if_pos hpos]
  have hslice : pyLastSlice C ops = ops := by
    unfold pyLastSlice
    rw [if_neg hC]
    have : ops.length - C = 0 := by omega
    rw [this, List.drop_zero]
  rw [hslice, lastN_of_le _ _ hlen]

theorem ledger_roundtrip (C : Nat) (inputs : List RecordInput)
    (hlen : inputs.length ≤ C) (hio : ∀ i ∈ inputs, i.ioOk = true) :
    initManager C .missing = .ok ⟨C, []⟩ ∧
    (runRecords ⟨C, []⟩ ⟨none⟩ inputs).1.operations = inputs.map mkRecord ∧
    initManager C (loadInputOfFs (runRecords ⟨C, []⟩ ⟨none⟩ inputs).2) =
      .ok ⟨C, inputs.map mkRecord⟩ := by
  have hinit : initManager C .missing = .ok ⟨C, []⟩ := by
    unfold initManager load_history
    by_cases hC : C = 0
    · rw [if_pos hC, hC]
      rfl
    · rw [if_neg hC]
      rfl
  rcases List.eq_nil_or_concat inputs with hnil | ⟨ys, x, hconcat⟩
  · subst hnil
    exact ⟨hinit, rfl, by simpa [runRecords, loadInputOfFs] using hinit⟩
  · have hconcat' : inputs = ys ++ [x] := by
      rw [hconcat, List.concat_eq_append]
    have hC : C ≠ 0 := by
      rw [hconcat'] at hlen
      simp only [List.length_append, List.length_singleton] at hlen
      omega
    obtain ⟨hmax, hops⟩ := runRecords_spec inputs ⟨C, []⟩ ⟨none⟩ hC (by simp)
    have hopsfinal : (runRecords ⟨C, []⟩ ⟨none⟩ inputs).1.operations =
        inputs.map mkRecord := by
      rw [hops]
      show lastN C ([] ++ inputs.map mkRecord) = _
      rw [List.nil_append]
      exact lastN_of_le _ _ (by simpa using hlen)
    have hx : x.ioOk = true := hio x (by rw [hconcat']; simp)
    have hmax' : (runRecords ⟨C, []⟩ ⟨none⟩ ys).1.max_entries = C := by
      have := (runRecords_spec ys ⟨C, []⟩ ⟨none⟩ hC (by simp)).1
      simpa using this
    have hfinal : runRecords ⟨C, []⟩ ⟨none⟩ inputs =
        (record_operation (runRecords ⟨C, []⟩ ⟨none⟩ ys).1
          (runRecords ⟨C, []⟩ ⟨none⟩ ys).2 x).2 := by
      rw [hconcat', runRecords_concat]
    have hst' : (record_operation (runRecords ⟨C, []⟩ ⟨none⟩ ys).1
        (runRecords ⟨C, []⟩ ⟨none⟩ ys).2 x).2.1 =
        ⟨C, dequeAppend C (runRecords ⟨C, []⟩ ⟨none⟩ ys).1.operations (mkRecord x)⟩ := by
      unfold record_operation
      rw [hmax']
      rw [if_neg hC]
    have hops2 : dequeAppend C (runRecords ⟨C, []⟩ ⟨none⟩ ys).1.operations
        (mkRecord x) = inputs.map mkRecord := by
      have h1 := hopsfinal
      rw [hfinal, hst'] at h1
      exact h1
    -- the final record call saved the whole deque
    have hstore : (runRecords ⟨C, []⟩ ⟨none⟩ inputs).2 =
        ⟨some (historyDoc (inputs.map mkRecord) x.ts)⟩ := by
      have hfs : (record_operation (runRecords ⟨C, []⟩ ⟨none⟩ ys).1
          (runRecords ⟨C, []⟩ ⟨none⟩ ys).2 x).2.2 =
          Fs.mk (some (historyDoc (dequeAppend C
            (runRecords ⟨C, []⟩ ⟨none⟩ ys).1.operations (mkRecord x)) x.ts)) := by
        simp [record_operation, save_history, hmax', hC, hx]
      rw [hfinal, hfs, hops2]
    refine ⟨hinit, hopsfinal, ?_⟩
    rw [hstore]
    show initManager C (.parsed (historyDoc (inputs.map mkRecord) x.ts)) = _
    unfold initManager
    rw [load_history_parsed_doc C hC _ (by simpa using hlen) x.ts]
    rfl

/-- C3 witness: capacity 2, one recorded operation; persisting and
reloading restores exactly that record. -/
theorem ledger_roundtrip_witness :
    (c3Inputs.length ≤ 2 ∧ ∀ i ∈ c3Inputs, i.ioOk = true) ∧
    (initManager 2 .missing = .ok ⟨2, []⟩ ∧
      (runRecords ⟨2, []⟩ ⟨none⟩ c3Inputs).1.operations = c3Inputs.map mkRecord ∧
      initManager 2 (loadInputOfFs (runRecords ⟨2, []⟩ ⟨none⟩ c3Inputs).2) =
        .ok ⟨2, c3Inputs.map mkRecord⟩) :=
  ⟨⟨by norm_num [c3Inputs], by simp [c3Inputs, smallInput]⟩,
    ledger_roundtrip 2 c3Inputs (by norm_num [c3Inputs])
      (by simp [c3Inputs, smallInput])⟩

/-! ## Claim C10: ledger construction against a pre-existing store -/

/-- C10 (amended): a store holding malformed JSON, or one whose read raises
`IOError`, is caught and yields a successfully constructed ledger with an
empty sequence; but construction is not immune to the store's contents:
valid JSON that is not an object (e.g. the empty list) raises
`AttributeError` at `data.get`, and an object whose operations value is not
sliceable (e.g. the number 5) raises `TypeError`, both escaping to the
caller. -/
theorem load_history_tolerance (m : Nat) :
    load_history m .malformed = .ok [] ∧
    load_history m .ioError = .ok [] ∧
    initManager m .malformed = .ok ⟨m, []⟩ ∧
    initManager m .ioError = .ok ⟨m, []⟩ ∧
    initManager 5 (.parsed (PyVal.pList [])) = .error .attributeError ∧
    initManager 5 (.parsed (PyVal.pDict [("operations", PyVal.pInt 5)])) =
      .error .typeError := by
  by_cases hm : m = 0
  · subst hm
    exact ⟨rfl, rfl, rfl, rfl, rfl, rfl⟩
  · unfold initManager load_history
    rw [if_neg hm]
    exact ⟨rfl, rfl, rfl, rfl, rfl, rfl⟩

/-- C10 counterexample: the claim's parenthetical says construction never
fails because of the store's contents; a store holding the valid JSON
document `[]` makes `data.get("operations", [])` raise `AttributeError`,
so construction raises to the caller. -/
theorem load_history_nondict_cex :
    initManager 5 (.parsed (PyVal.pList [])) = .error .attributeError ∧
    (.error .attributeError : Except PyErr HistoryManager) ≠ .ok ⟨5, []⟩ := by
  refine ⟨rfl, ?_⟩
  intro h
  exact Except.noConfusion h

/-! ## Claim C4: create with overwrite=false on an existing path -/

/-- C4 (amended): when the remote reports that the path already exists
(the 409 status), create with overwrite=false does fail — but the status
is unhandled, escapes `raise_for_status` as a raw status error, and the
route's catch-all surfaces it as a 500 Internal error; no code path of the
create route ever surfaces the 409 Conflict kind. -/
theorem create_file_snd_cases (path content : String) (ow : Bool)
    (o : RemoteOutcome) :
    (∃ msg, o = .connError msg ∧
      (create_file path content ow o).2 = .error (badGateway msg)) ∨
    (∃ r, o = .response r ∧ r.status = 400 ∧
      (create_file path content ow o).2 =
        .error (.http 400 ("Bad request: " ++ r.text))) ∨
    (∃ r, o = .response r ∧ r.status ≠ 400 ∧ 400 ≤ r.status ∧
      (create_file path content ow o).2 = .error (.statusError r.status)) ∨
    (∃ r, o = .response r ∧ ¬ 400 ≤ r.status ∧
      ∃ v, (create_file path content ow o).2 = .ok v) := by
  cases o with
  | connError msg => exact Or.inl ⟨msg, rfl, by simp [create_file]⟩
  | response r =>
    by_cases h4 : r.status = 400
    · exact Or.inr (Or.inl ⟨r, rfl, h4, by simp [create_file, h4]⟩)
    · by_cases h5 : 400 ≤ r.status
      · refine Or.inr (Or.inr (Or.inl ⟨r, rfl, h4, h5, ?_⟩))
        simp [create_file, raiseForStatus, h4, h5]
      · refine Or.inr (Or.inr (Or.inr ⟨r, rfl, h5, ?_, ?_⟩))
        · exact PyVal.pDict
            [ ("path", PyVal.pStr (pyLstripSlash path))
            , ("created", PyVal.pBool true)
            , ("message", PyVal.pStr
                ("File created successfully: " ++ pyLstripSlash path)) ]
        · simp [create_file, raiseForStatus, h4, h5]

theorem create_no_conflict_kind (path content : String) (g : RemoteOutcome)
    (r : HttpResponse) (hr : r.status = 409)
    (hpath : (path = "" || strEndsWith path "/") = false) :
    router_create_file path content false g (.response r) =
      .error ⟨500, "Failed to create file: "⟩ ∧
    ∀ (o : RemoteOutcome) (e : HTTPError),
      router_create_file path content false g o = .error e →
      e.status_code ≠ 409 := by
  constructor
  · unfold router_create_file
    rw [if_neg (by rw [hpath]; exact Bool.false_ne_true)]
    show wrap500 _ (create_file path content false (.response r)).2 = _
    rcases create_file_snd_cases path content false (.response r) with
      ⟨msg, hmsg, _⟩ | ⟨r', hr', h4, hres⟩ | ⟨r', hr', h4, h5, hres⟩ |
      ⟨r', hr', h5, v, hres⟩
    · exact absurd hmsg (by simp)
    · cases hr'
      omega
    · rw [hres]
      rfl
    · cases hr'
      omega
  · intro o e he
    unfold router_create_file at he
    split at he
    · have h1 : e = ⟨400, "Invalid file path. Cannot create a directory."⟩ :=
        (Except.error.injEq _ _).mp he.symm
      rw [h1]
      decide
    · simp only [Bool.false_eq_true, if_false] at he
      have he' : wrap500 "Failed to create file: "
          (create_file path content false o).2 = .error e := he
      rcases create_file_snd_cases path content false o with
        ⟨msg, hmsg, hres⟩ | ⟨r', hr', h4, hres⟩ | ⟨r', hr', h4, h5, hres⟩ |
        ⟨r', hr', h5, v, hres⟩
      · rw [hres] at he'
        have h1 : e = ⟨502, "Failed to connect to Obsidian API: " ++ msg⟩ :=
          (Except.error.injEq _ _).mp ((by rw [← he']; rfl :
            (Except.error ⟨502, "Failed to connect to Obsidian API: " ++ msg⟩ :
              Except HTTPError PyVal) = .error e)).symm
        rw [h1]
        exact (by decide : (502 : Nat) ≠ 409)
      · rw [hres] at he'
        have h1 : e = ⟨400, "Bad request: " ++ r'.text⟩ :=
          (Except.error.injEq _ _).mp ((by rw [← he']; rfl :
            (Except.error ⟨400, "Bad request: " ++ r'.text⟩ :
              Except HTTPError PyVal) = .error e)).symm
        rw [h1]
        exact (by decide : (400 : Nat) ≠ 409)
      · rw [hres] at he'
        have h1 : e = ⟨500, "Failed to create file: "⟩ :=
          (Except.error.injEq _ _).mp ((by rw [← he']; rfl :
            (Except.error ⟨500, "Failed to create file: "⟩ :
              Except HTTPError PyVal) = .error e)).symm
        rw [h1]
        decide
      · rw [hres] at he'
        exact Except.noConfusion he'

/-- C4 witness: a second create of "note.md" with overwrite=false where the
remote answers 409 surfaces a 500, not a 409 Conflict. -/
theorem create_no_conflict_kind_witness :
    (((409 : Nat) = 409) ∧ (("note.md" = "" || strEndsWith "note.md" "/") = false)) ∧
    (router_create_file "note.md" "hello" false (.response ⟨200, "", none⟩)
        (.response ⟨409, "File already exists", none⟩) =
      .error ⟨500, "Failed to create file: "⟩ ∧
    ∀ (o : RemoteOutcome) (e : HTTPError),
      router_create_file "note.md" "hello" false (.response ⟨200, "", none⟩) o =
        .error e → e.status_code ≠ 409) :=
  ⟨⟨rfl, by decide⟩,
    create_no_conflict_kind "note.md" "hello" (.response ⟨200, "", none⟩)
      ⟨409, "File already exists", none⟩ rfl (by decide)⟩

/-- C4 counterexample: the claim says the second create fails with the
Conflict (409) kind; at the concrete input where the remote reports the
path exists with status 409, the route returns a 500 error instead. -/
theorem create_conflict_cex :
    router_create_file "note.md" "hello" false (.response ⟨200, "", none⟩)
      (.response ⟨409, "File already exists", none⟩) =
      .error ⟨500, "Failed to create file: "⟩ ∧
    ((⟨500, "Failed to create file: "⟩ : HTTPError).status_code = 409) = False := by
  constructor
  · rfl
  · simp

/-! ## Claim C5: append and the separating newline -/

/-- C5 (amended): `append_to_file` issues a single POST whose body is the
given content verbatim — it never reads the existing content and never
inserts a separating newline.  Consequently the spec's no-leading-blank-line
property for a path with no existing content holds (the posted body equals
the content exactly), but the conditional newline insertion the claim
describes does not exist. -/
theorem append_sends_content_verbatim (path content : String)
    (o : RemoteOutcome) :
    (append_to_file path content o).1.body = content ∧
    (append_to_file path content o).1.method = "POST" ∧
    spec_append_body none content = content := by
  exact ⟨rfl, rfl, rfl⟩

/-- C5 counterexample: for existing content "abc" (no trailing newline) the
claim says the gateway sends a separating newline before "x"; the code's
request body is "x" itself, not "\n" ++ "x". -/
theorem append_newline_cex :
    spec_append_body (some "abc") "x" = "\n" ++ "x" ∧
    (append_to_file "note.md" "x" (.response ⟨200, "", none⟩)).1.body = "x" ∧
    ("x" : String) ≠ "\n" ++ "x" := by
  refine ⟨by decide, rfl, by decide⟩

/-! ## Claim C6: simple search when native search is unavailable -/

/-- C6 (amended): when the remote answers the search request with 404 — the
capability-absent signal — `simple_search` does not fall back to any linear
scan (none exists in the gateway); it fails with the 501 NotImplemented
HTTPException, which the search route re-raises unchanged. -/
theorem simple_search_not_implemented (q : String) (cl : Nat)
    (r : HttpResponse) (h : r.status = 404) :
    simple_search q cl (.response r) = .error (.http 501
      "Simple search endpoint not available in your Obsidian Local REST API version") := by
  simp [simple_search, h]

/-- C6 witness: searching "q" when the remote answers 404 yields the 501
NotImplemented error. -/
theorem simple_search_not_implemented_witness :
    ((404 : Nat) = 404) ∧
    simple_search "q" 100 (.response ⟨404, "", none⟩) = .error (.http 501
      "Simple search endpoint not available in your Obsidian Local REST API version") :=
  ⟨rfl, simple_search_not_implemented "q" 100 ⟨404, "", none⟩ rfl⟩

/-- C6 counterexample: the claim says the search does not fail on the
capability-absent signal; at the concrete 404 answer the call returns an
error, not a success. -/
theorem simple_search_404_cex :
    simple_search "q" 100 (.response ⟨404, "", none⟩) = .error (.http 501
      "Simple search endpoint not available in your Obsidian Local REST API version") ∧
    (simple_search "q" 100 (.response ⟨404, "", none⟩)).isOk = false := by
  exact ⟨rfl, rfl⟩

/-! ## Claim C7: directory listing entries -/

/-- C7 (code divergence): on a successful listing, the client passes the
remote's entries through as the raw strings the Obsidian API sends
("note.md", "folder/"), while the route subscripts each entry as a mapping
with "path"/"name"/"is_directory" keys, which raises `TypeError` on a
string — so every non-empty listing fails at the route and no entry with a
derived directory classification is ever produced.  The NotFound half of
the claim does hold at the client. -/
theorem list_directory_entries_typeerror :
    list_directory "/" (.response c7Response) = .ok (PyVal.pDict
      [ ("path", PyVal.pStr "/")
      , ("files", PyVal.pList [PyVal.pStr "note.md", PyVal.pStr "folder/"])
      , ("total", PyVal.pInt 2) ]) ∧
    router_list_directory "/" (.response c7Response) = .error .typeError ∧
    list_directory "missing" (.response ⟨404, "", none⟩) =
      .error (.http 404 "Directory not found: missing") := by
  exact ⟨rfl, rfl, rfl⟩

/-! ## Claim C8: delete error mapping -/

/-- C8 (confirmed): `delete_file` fails with the 404 NotFound kind when the
remote reports the path absent, and with the 405 MethodNotAllowed kind when
the remote reports the addressed path is a directory. -/
theorem delete_file_error_kinds (path : String) (r : HttpResponse) :
    (r.status = 404 → delete_file path (.response r) =
      .error (.http 404 ("File not found: " ++ pyLstripSlash path))) ∧
    (r.status = 405 → delete_file path (.response r) =
      .error (.http 405 "Cannot delete: path is a directory, not a file")) := by
  constructor
  · intro h
    simp [delete_file, h]
  · intro h
    simp [delete_file, h]

/-- C8 witness: deleting "a.md" when the remote answers 404 yields the 404
NotFound error; deleting "folder" when the remote answers 405 yields the
405 MethodNotAllowed error. -/
theorem delete_file_error_kinds_witness :
    ((404 : Nat) = 404 ∧ delete_file "a.md" (.response ⟨404, "x", none⟩) =
      .error (.http 404 ("File not found: " ++ pyLstripSlash "a.md"))) ∧
    ((405 : Nat) = 405 ∧ delete_file "folder" (.response ⟨405, "x", none⟩) =
      .error (.http 405 "Cannot delete: path is a directory, not a file")) :=
  ⟨⟨rfl, (delete_file_error_kinds "a.md" ⟨404, "x", none⟩).1 rfl⟩,
    ⟨rfl, (delete_file_error_kinds "folder" ⟨405, "x", none⟩).2 rfl⟩⟩

/-! ## Claim C9: path encoding -/

theorem foldl_append_head (l : List String) :
    ∀ s : String, s.data ≠ [] →
      (List.foldl (fun r c => r ++ c) s l).data.head? = s.data.head? := by
  induction l with
  | nil =>
    intro s hs
    rfl
  | cons a rest ih =>
    intro s hs
    have hne : (s ++ a).data ≠ [] := by
      rw [String.data_append]
      intro hcontra
      exact hs (List.append_eq_nil.mp hcontra).1
    have h2 : (s ++ a).data.head? = s.data.head? := by
      rw [String.data_append]
      rcases hd : s.data with _ | ⟨c, cs⟩
      · exact absurd hd hs
      · rfl
    calc (List.foldl (fun r c => r ++ c) s (a :: rest)).data.head?
        = (List.foldl (fun r c => r ++ c) (s ++ a) rest).data.head? := rfl
      _ = (s ++ a).data.head? := ih (s ++ a) hne
      _ = s.data.head? := h2

theorem join_percent_head (b : Nat) (bs : List Nat) :
    (String.join ((b :: bs).map percentByte)).data.head? = some '%' := by
  have h1 : String.join ((b :: bs).map percentByte) =
      List.foldl (fun r c => r ++ c) ("" ++ percentByte b) (bs.map percentByte) := rfl
  rw [h1, foldl_append_head (bs.map percentByte) ("" ++ percentByte b)
    (fun h => List.noConfusion h)]
  rfl

theorem utf8Bytes_ne_nil (c : Char) : utf8Bytes c ≠ [] := by
  unfold utf8Bytes
  by_cases h1 : c.toNat < 128
  · simp [h1]
  · by_cases h2 : c.toNat < 2048
    · simp [h1, h2]
    · by_cases h3 : c.toNat < 65536
      · simp [h1, h2, h3]
      · simp [h1, h2, h3]

/-- C9 (amended): the encoder strips every leading separator — one more
leading '/' never changes the result — and on paths with no leading
separator it is exactly `quote(path, safe="/")`; interior separators pass
through unencoded, and every character outside the safe set is rendered as
percent escapes.  (The claim's "strips exactly one leading separator" is
amended to "strips all leading separators".) -/
theorem encode_path_spec :
    (∀ p : String, encode_path ("/" ++ p) = encode_path p) ∧
    (∀ p : String, p.data.head? ≠ some '/' → encode_path p = pyQuote p) ∧
    quoteSafeSlash '/' = "/" ∧
    (∀ c : Char, (isAlwaysSafe c || c == '/') = false →
      (quoteSafeSlash c).data.head? = some '%') := by
  refine ⟨?_, ?_, rfl, ?_⟩
  · intro p
    unfold encode_path pyLstripSlash
    congr 1
  · intro p h
    have hdrop : p.data.dropWhile (fun c => c == '/') = p.data := by
      cases hd : p.data with
      | nil => rfl
      | cons c cs =>
        have hc : c ≠ '/' := by
          intro hceq
          rw [hd, hceq] at h
          exact h rfl
        have hcb : (c == '/') = false := by
          simp [hc]
        simp [List.dropWhile, hcb]
    unfold encode_path pyLstripSlash
    rw [hdrop]
  · intro c h
    unfold quoteSafeSlash
    rw [if_neg (by rw [h]; exact Bool.false_ne_true)]
    rcases hb : utf8Bytes c with _ | ⟨b, bs⟩
    · exact absurd hb (utf8Bytes_ne_nil c)
    · exact join_percent_head b bs

/-- C9 witness: "a b.md" has no leading separator and encodes exactly as
quote does, with the space percent-encoded and the interior '/' of
"dir/a b.md" preserved. -/
theorem encode_path_spec_witness :
    (String.data "a b.md").head? ≠ some '/' ∧
    encode_path "a b.md" = pyQuote "a b.md" ∧
    encode_path "/dir/a b.md" = encode_path "dir/a b.md" ∧
    (quoteSafeSlash ' ').data.head? = some '%' ∧
    encode_path "dir/a b.md" = "dir/a%20b.md" :=
  ⟨by decide,
    encode_path_spec.2.1 "a b.md" (by decide),
    encode_path_spec.1 "dir/a b.md",
    encode_path_spec.2.2.2 ' ' (by decide),
    by decide⟩

/-- C9 counterexample: the claim says exactly one leading separator is
stripped, so "//a" would keep one slash and encode to "/a"; the code's
`lstrip("/")` strips both and encodes to "a". -/
theorem encode_path_two_slashes_cex :
    encode_path "//a" = "a" ∧
    spec_encode_one "//a" = "/a" ∧
    ("a" : String) ≠ "/a" := by
  refine ⟨by decide, by decide, by decide⟩

end ObsidianOpenAPI
